import Mathlib

/- Verification of the hyperbalancer concentrated-liquidity fee reader.

   The development shallowly embeds the parts of the TypeScript source that
   carry the fee-accounting logic:
   - src/utils.ts          : Q128, MAX_UINT256, subIn256
   - src/hyperswap.ts      : calculateUncollectedFees, getCounterfactualFees,
                             getPositionsForWallet, getTickSpacingForFee,
                             TICK_SPACINGS, initializeFactory, the inRange flag
   - src/index.ts          : KittenswapManager.initializeFactory and the
                             identical inRange flag in its getPosition

   TypeScript bigint values are modeled as Lean Int.  A BigNumberish field is
   modeled as Option Int: some n is a value the BigInt() conversion maps to n,
   none is a malformed value on which BigInt() throws.  Thrown exceptions are
   modeled with Except String.  Network collaborators (the getTicks call, the
   position-manager enumeration calls, the factory fetch) are passed in as
   explicit function arguments, so that dependence or non-dependence on them
   is visible in the statements.  JS BigInt division truncates toward zero,
   which is Int.tdiv. -/

set_option maxRecDepth 8000

namespace Hyperbalancer

/-- src/utils.ts line 5: MAX_UINT256 = 2n ** 256n - 1n. -/
def MAX_UINT256 : Int := 2 ^ 256 - 1

/-- src/utils.ts line 4: Q128 = 2n ** 128n. -/
def Q128 : Int := 2 ^ 128

/-- src/utils.ts lines 183-185: wraparound subtraction in the 256-bit ring.
    Source: x >= y ? x - y : MAX_UINT256 - y + x + 1n. -/
def subIn256 (x y : Int) : Int :=
  if y ≤ x then x - y else MAX_UINT256 - y + x + 1

/-- A TypeScript BigNumberish field: some n converts to the bigint n, none is
    a value on which the BigInt() conversion throws. -/
abbrev BigNumberish := Option Int

/-- Model of the BigInt(v) conversion on a BigNumberish value. -/
def jsBigInt : BigNumberish → Except String Int
  | some n => .ok n
  | none => .error "Cannot convert to a BigInt"

/-- Value of a decimal digit character, none for any other character. -/
def digitVal (c : Char) : Option Nat :=
  if c = '0' then some 0 else if c = '1' then some 1 else if c = '2' then some 2
  else if c = '3' then some 3 else if c = '4' then some 4 else if c = '5' then some 5
  else if c = '6' then some 6 else if c = '7' then some 7 else if c = '8' then some 8
  else if c = '9' then some 9 else none

/-- Accumulating decimal parse over a character list. -/
def parseDigits : List Char → Nat → Option Nat
  | [], acc => some acc
  | c :: cs, acc =>
    match digitVal c with
    | some d => parseDigits cs (acc * 10 + d)
    | none => none

/-- Decimal numeral parse of a string, none when the string is empty or has a
    non-digit character. -/
def parseDec (s : String) : Option Nat :=
  if s = "" then none else parseDigits s.data 0

/-- Model of the BigInt(s) conversion on a string: the numeric value of a
    decimal numeral, or a thrown error otherwise.  The liquidity and
    tokensOwed strings in the source are produced by toString() on bigint
    values, so they are canonical decimal numerals. -/
def jsBigIntOfString (s : String) : Except String Int :=
  match parseDec s with
  | some n => .ok (Int.ofNat n)
  | none => .error "Cannot convert to a BigInt"

/-- Model of the expression tokensOwed ? BigInt(tokensOwed) : 0n, which the
    source evaluates at src/hyperswap.ts lines 460-461 and 550-553: an absent
    field and the empty string are falsy in JS and yield 0n. -/
def owedToBigInt : Option String → Except String Int
  | none => .ok 0
  | some s => if s = "" then .ok 0 else jsBigIntOfString s

/-- The position argument of calculateUncollectedFees
    (src/hyperswap.ts lines 441-449). -/
structure PositionInput where
  liquidity : String
  tickLower : Int
  tickUpper : Int
  feeGrowthInside0LastX128 : BigNumberish
  feeGrowthInside1LastX128 : BigNumberish
  tokensOwed0 : Option String
  tokensOwed1 : Option String
deriving DecidableEq

/-- The pool argument of calculateUncollectedFees
    (src/hyperswap.ts lines 450-455); getCounterfactualFees reads only the
    tick field of its PoolData argument. -/
structure PoolInput where
  address : String
  tick : Int
  feeGrowthGlobal0X128 : BigNumberish
  feeGrowthGlobal1X128 : BigNumberish
deriving DecidableEq

/-- The two fee-growth-outside fields that getTicks
    (src/hyperswap.ts lines 173-189) returns for one tick boundary. -/
structure TickData where
  feeGrowthOutside0X128 : BigNumberish
  feeGrowthOutside1X128 : BigNumberish
deriving DecidableEq

/-- The record returned by calculateUncollectedFees
    (src/hyperswap.ts lines 555-558). -/
structure FeeResult where
  token0Fees : Int
  token1Fees : Int
deriving DecidableEq

/-- Fee growth below the range for one token index
    (src/hyperswap.ts lines 499-511; single-token form at lines 333-338):
    when the pool tick is at or above tickLower the outside snapshot is used
    directly, otherwise the wrapped difference from the global counter. -/
def feeGrowthBelowCalc (tickCurrent tickLower feeGrowthGlobal feeGrowthOutsideLower : Int) : Int :=
  if tickLower ≤ tickCurrent then feeGrowthOutsideLower
  else subIn256 feeGrowthGlobal feeGrowthOutsideLower

/-- Fee growth above the range for one token index
    (src/hyperswap.ts lines 517-529; single-token form at lines 340-345):
    strictly below tickUpper the outside snapshot is used directly; at or
    above tickUpper the wrapped difference is used, so equality with
    tickUpper takes the subtract branch. -/
def feeGrowthAboveCalc (tickCurrent tickUpper feeGrowthGlobal feeGrowthOutsideUpper : Int) : Int :=
  if tickCurrent < tickUpper then feeGrowthOutsideUpper
  else subIn256 feeGrowthGlobal feeGrowthOutsideUpper

/-- Fee growth inside the range for one token index
    (src/hyperswap.ts lines 532-539; single-token form at lines 347-350). -/
def feeGrowthInsideCalc (tickCurrent tickLower tickUpper feeGrowthGlobal feeGrowthOutsideLower feeGrowthOutsideUpper : Int) : Int :=
  subIn256
    (subIn256 feeGrowthGlobal
      (feeGrowthBelowCalc tickCurrent tickLower feeGrowthGlobal feeGrowthOutsideLower))
    (feeGrowthAboveCalc tickCurrent tickUpper feeGrowthGlobal feeGrowthOutsideUpper)

/-- src/hyperswap.ts lines 323-356, getCounterfactualFees: the accrued fees
    for one token index, before tokensOwed is added.  The source branches on
    pool.tick exactly as feeGrowthBelowCalc and feeGrowthAboveCalc do, then
    divides by 2 ** 128 with JS bigint division (truncation toward zero). -/
def getCounterfactualFees (feeGrowthGlobal feeGrowthOutsideLower feeGrowthOutsideUpper feeGrowthInsideLast : Int) (pool : PoolInput) (liquidity : Int) (tickLower tickUpper : Int) : Int :=
  Int.tdiv
    (subIn256
      (feeGrowthInsideCalc pool.tick tickLower tickUpper feeGrowthGlobal
        feeGrowthOutsideLower feeGrowthOutsideUpper)
      feeGrowthInsideLast * liquidity)
    Q128

/-- src/hyperswap.ts lines 440-559, calculateUncollectedFees.  The network
    call this.getTicks(pool.address, tick) issued at lines 477-478 is the
    explicit getTicks argument; an error result models a thrown exception
    (a failed fetch or a failed BigInt conversion).  The source computes the
    below/above branches for both token indices under one condition; here the
    identical per-token branch functions are applied to each index.  The
    tokensOwed conversions happen after the fee arithmetic, as in the source
    expression order at lines 550-553. -/
def calculateUncollectedFees
    (getTicks : String → Int → Except String TickData)
    (position : PositionInput) (pool : PoolInput) : Except String FeeResult :=
  if position.liquidity = "0" then do
    let t0 ← owedToBigInt position.tokensOwed0
    let t1 ← owedToBigInt position.tokensOwed1
    .ok { token0Fees := t0, token1Fees := t1 }
  else do
    let liquidity ← jsBigIntOfString position.liquidity
    let feeGrowthGlobal0X128 ← jsBigInt pool.feeGrowthGlobal0X128
    let feeGrowthGlobal1X128 ← jsBigInt pool.feeGrowthGlobal1X128
    let feeGrowthInside0LastX128 ← jsBigInt position.feeGrowthInside0LastX128
    let feeGrowthInside1LastX128 ← jsBigInt position.feeGrowthInside1LastX128
    let tickLower := position.tickLower
    let tickUpper := position.tickUpper
    let tickCurrent := pool.tick
    let tickLowerFees ← getTicks pool.address tickLower
    let tickHigherFees ← getTicks pool.address tickUpper
    let feeGrowthOutsideLower0X128 ← jsBigInt tickLowerFees.feeGrowthOutside0X128
    let feeGrowthOutsideLower1X128 ← jsBigInt tickLowerFees.feeGrowthOutside1X128
    let feeGrowthOutsideUpper0X128 ← jsBigInt tickHigherFees.feeGrowthOutside0X128
    let feeGrowthOutsideUpper1X128 ← jsBigInt tickHigherFees.feeGrowthOutside1X128
    let feeGrowthBelow0X128 := feeGrowthBelowCalc tickCurrent tickLower feeGrowthGlobal0X128 feeGrowthOutsideLower0X128
    let feeGrowthBelow1X128 := feeGrowthBelowCalc tickCurrent tickLower feeGrowthGlobal1X128 feeGrowthOutsideLower1X128
    let feeGrowthAbove0X128 := feeGrowthAboveCalc tickCurrent tickUpper feeGrowthGlobal0X128 feeGrowthOutsideUpper0X128
    let feeGrowthAbove1X128 := feeGrowthAboveCalc tickCurrent tickUpper feeGrowthGlobal1X128 feeGrowthOutsideUpper1X128
    let feeGrowthInside0X128 := subIn256 (subIn256 feeGrowthGlobal0X128 feeGrowthBelow0X128) feeGrowthAbove0X128
    let feeGrowthInside1X128 := subIn256 (subIn256 feeGrowthGlobal1X128 feeGrowthBelow1X128) feeGrowthAbove1X128
    let feesToken0 := Int.tdiv (subIn256 feeGrowthInside0X128 feeGrowthInside0LastX128 * liquidity) Q128
    let feesToken1 := Int.tdiv (subIn256 feeGrowthInside1X128 feeGrowthInside1LastX128 * liquidity) Q128
    let owed0 ← owedToBigInt position.tokensOwed0
    let owed1 ← owedToBigInt position.tokensOwed1
    .ok { token0Fees := feesToken0 + owed0, token1Fees := feesToken1 + owed1 }

lemma except_bind_ok {α β : Type} (a : α) (f : α → Except String β) :
    (Except.ok a : Except String α) >>= f = f a := rfl

lemma subIn256_self (x : Int) : subIn256 x x = 0 := by
  simp [subIn256]

/-- Successful-run characterization of calculateUncollectedFees: when the
    liquidity string is not the zero string, every BigInt conversion
    succeeds, and both tick fetches succeed, the result is the per-token
    counterfactual fees plus the converted owed amounts. -/
lemma calcFees_ok
    (getTicks : String → Int → Except String TickData)
    (position : PositionInput) (pool : PoolInput)
    (liq g0 g1 last0 last1 oL0 oL1 oU0 oU1 t0 t1 : Int)
    (tickL tickU : TickData)
    (hliq : position.liquidity ≠ "0")
    (hliqP : jsBigIntOfString position.liquidity = .ok liq)
    (hg0 : pool.feeGrowthGlobal0X128 = some g0)
    (hg1 : pool.feeGrowthGlobal1X128 = some g1)
    (hl0 : position.feeGrowthInside0LastX128 = some last0)
    (hl1 : position.feeGrowthInside1LastX128 = some last1)
    (htl : getTicks pool.address position.tickLower = .ok tickL)
    (htu : getTicks pool.address position.tickUpper = .ok tickU)
    (ho1 : tickL.feeGrowthOutside0X128 = some oL0)
    (ho2 : tickL.feeGrowthOutside1X128 = some oL1)
    (ho3 : tickU.feeGrowthOutside0X128 = some oU0)
    (ho4 : tickU.feeGrowthOutside1X128 = some oU1)
    (hw0 : owedToBigInt position.tokensOwed0 = .ok t0)
    (hw1 : owedToBigInt position.tokensOwed1 = .ok t1) :
    calculateUncollectedFees getTicks position pool = .ok
      { token0Fees := getCounterfactualFees g0 oL0 oU0 last0 pool liq position.tickLower position.tickUpper + t0
        token1Fees := getCounterfactualFees g1 oL1 oU1 last1 pool liq position.tickLower position.tickUpper + t1 } := by
  simp only [calculateUncollectedFees, if_neg hliq, hliqP, hg0, hg1, hl0, hl1, htl, htu,
    ho1, ho2, ho3, ho4, hw0, hw1, jsBigInt, except_bind_ok, getCounterfactualFees,
    feeGrowthInsideCalc]

deriving instance DecidableEq for Except

/-- C1: for all x, y with 0 ≤ x, y < 2^256, subIn256 returns x - y when
    x ≥ y and 2^256 - y + x otherwise, which is (x - y) mod 2^256, and
    subIn256 x x = 0 for every x in range. -/
theorem subIn256_spec (x y : Int) (hx0 : 0 ≤ x) (hx : x < 2 ^ 256)
    (hy0 : 0 ≤ y) (hy : y < 2 ^ 256) :
    subIn256 x y = (x - y) % 2 ^ 256 ∧
    (y ≤ x → subIn256 x y = x - y) ∧
    (x < y → subIn256 x y = 2 ^ 256 - y + x) ∧
    subIn256 x x = 0 := by
  have hpow : (2 : Int) ^ 256 =
      115792089237316195423570985008687907853269984665640564039457584007913129639936 := by
    norm_num
  simp only [subIn256, MAX_UINT256]
  rw [hpow] at hx hy ⊢
  refine ⟨?_, fun h => ?_, fun h => ?_, ?_⟩ <;> split <;> omega

/-- C1 witness: the subIn256 specification evaluated at x = 5, y = 3. -/
theorem subIn256_spec_inst :
    subIn256 5 3 = (5 - 3) % 2 ^ 256 ∧
    ((3 : Int) ≤ 5 → subIn256 5 3 = 5 - 3) ∧
    ((5 : Int) < 3 → subIn256 5 3 = 2 ^ 256 - 3 + 5) ∧
    subIn256 5 5 = 0 :=
  subIn256_spec 5 3 (by norm_num) (by norm_num) (by norm_num) (by norm_num)

/-- C3: a position whose liquidity field is the string zero takes the fast
    path of calculateUncollectedFees: the result is exactly the converted
    tokensOwed pair, for every tick oracle and every content of the
    fee-growth fields of the position and the pool, malformed values
    included, none of which is read. -/
theorem zeroLiquidity_returns_tokensOwed
    (getTicks : String → Int → Except String TickData)
    (position : PositionInput) (pool : PoolInput) (t0 t1 : Int)
    (hliq : position.liquidity = "0")
    (h0 : owedToBigInt position.tokensOwed0 = .ok t0)
    (h1 : owedToBigInt position.tokensOwed1 = .ok t1) :
    calculateUncollectedFees getTicks position pool
      = .ok { token0Fees := t0, token1Fees := t1 } := by
  simp only [calculateUncollectedFees, if_pos hliq, h0, h1, except_bind_ok]

/-- Zero-liquidity position with every fee-growth field malformed. -/
def c3Position : PositionInput :=
  { liquidity := "0", tickLower := -100, tickUpper := 100
    feeGrowthInside0LastX128 := none, feeGrowthInside1LastX128 := none
    tokensOwed0 := some "7", tokensOwed1 := none }

/-- Pool with malformed global fee-growth fields. -/
def c3Pool : PoolInput :=
  { address := "0xpool", tick := 0
    feeGrowthGlobal0X128 := none, feeGrowthGlobal1X128 := none }

/-- A chain data source whose tick fetch always fails. -/
def failingGetTicks : String → Int → Except String TickData :=
  fun _ _ => .error "tick fetch failed"

/-- C3 witness: with malformed fee-growth data and a failing tick oracle the
    zero-liquidity fast path still returns the owed amounts. -/
theorem zeroLiquidity_returns_tokensOwed_inst :
    calculateUncollectedFees failingGetTicks c3Position c3Pool
      = .ok { token0Fees := 7, token1Fees := 0 } :=
  zeroLiquidity_returns_tokensOwed failingGetTicks c3Position c3Pool 7 0
    (by decide) (by decide) (by decide)

/-- Position with nonzero liquidity and well-formed fields. -/
def c4Position : PositionInput :=
  { liquidity := "1", tickLower := -10, tickUpper := 10
    feeGrowthInside0LastX128 := some 0, feeGrowthInside1LastX128 := some 0
    tokensOwed0 := none, tokensOwed1 := none }

/-- Pool with well-formed zero fee-growth counters. -/
def c4Pool : PoolInput :=
  { address := "0xpool", tick := 0
    feeGrowthGlobal0X128 := some 0, feeGrowthGlobal1X128 := some 0 }

/-- A chain data source whose tick fetch succeeds with zero counters. -/
def zeroGetTicks : String → Int → Except String TickData :=
  fun _ _ => .ok { feeGrowthOutside0X128 := some 0, feeGrowthOutside1X128 := some 0 }

/-- C4 counterexample: for a well-formed nonzero-liquidity position,
    calculateUncollectedFees consults the tick oracle itself and propagates
    its failure, so it is neither failure-free nor independent of the chain
    data source. -/
theorem calculateUncollectedFees_fetches_cex :
    calculateUncollectedFees failingGetTicks c4Position c4Pool = .error "tick fetch failed" ∧
    calculateUncollectedFees zeroGetTicks c4Position c4Pool
      = .ok { token0Fees := 0, token1Fees := 0 } ∧
    calculateUncollectedFees failingGetTicks c4Position c4Pool
      ≠ calculateUncollectedFees zeroGetTicks c4Position c4Pool :=
  ⟨by decide, by decide, by decide⟩

/-- C4 amended: the two boundary tick fetches are performed inside
    calculateUncollectedFees; only a failed fetch or a failed BigInt
    conversion can make it fail, and once those succeed the rest is pure
    arithmetic: per-token counterfactual fees plus the owed amounts. -/
theorem calculateUncollectedFees_success_characterization
    (getTicks : String → Int → Except String TickData)
    (position : PositionInput) (pool : PoolInput)
    (liq g0 g1 last0 last1 oL0 oL1 oU0 oU1 t0 t1 : Int)
    (tickL tickU : TickData)
    (hliq : position.liquidity ≠ "0")
    (hliqP : jsBigIntOfString position.liquidity = .ok liq)
    (hg0 : pool.feeGrowthGlobal0X128 = some g0)
    (hg1 : pool.feeGrowthGlobal1X128 = some g1)
    (hl0 : position.feeGrowthInside0LastX128 = some last0)
    (hl1 : position.feeGrowthInside1LastX128 = some last1)
    (htl : getTicks pool.address position.tickLower = .ok tickL)
    (htu : getTicks pool.address position.tickUpper = .ok tickU)
    (ho1 : tickL.feeGrowthOutside0X128 = some oL0)
    (ho2 : tickL.feeGrowthOutside1X128 = some oL1)
    (ho3 : tickU.feeGrowthOutside0X128 = some oU0)
    (ho4 : tickU.feeGrowthOutside1X128 = some oU1)
    (hw0 : owedToBigInt position.tokensOwed0 = .ok t0)
    (hw1 : owedToBigInt position.tokensOwed1 = .ok t1) :
    calculateUncollectedFees getTicks position pool = .ok
      { token0Fees := getCounterfactualFees g0 oL0 oU0 last0 pool liq position.tickLower position.tickUpper + t0
        token1Fees := getCounterfactualFees g1 oL1 oU1 last1 pool liq position.tickLower position.tickUpper + t1 } :=
  calcFees_ok getTicks position pool liq g0 g1 last0 last1 oL0 oL1 oU0 oU1 t0 t1 tickL tickU
    hliq hliqP hg0 hg1 hl0 hl1 htl htu ho1 ho2 ho3 ho4 hw0 hw1

/-- C4 amended witness: the characterization applied to the concrete
    well-formed position, pool and tick oracle. -/
theorem calculateUncollectedFees_success_characterization_inst :
    calculateUncollectedFees zeroGetTicks c4Position c4Pool = .ok
      { token0Fees := getCounterfactualFees 0 0 0 0 c4Pool 1 c4Position.tickLower c4Position.tickUpper + 0
        token1Fees := getCounterfactualFees 0 0 0 0 c4Pool 1 c4Position.tickLower c4Position.tickUpper + 0 } :=
  calculateUncollectedFees_success_characterization zeroGetTicks c4Position c4Pool
    1 0 0 0 0 0 0 0 0 0 0
    { feeGrowthOutside0X128 := some 0, feeGrowthOutside1X128 := some 0 }
    { feeGrowthOutside0X128 := some 0, feeGrowthOutside1X128 := some 0 }
    (by decide) (by decide) rfl rfl rfl rfl rfl rfl rfl rfl rfl rfl (by decide) (by decide)

/-- C2: boundary tie-break asymmetry, for both token indices.  With the
    pool tick equal to tickLower, each feeGrowthBelow is the outside
    snapshot used directly; with the pool tick equal to tickUpper, each
    feeGrowthAbove is the subtracted form, since the strict less-than
    branch excludes equality.  Stated for the branch helpers and for the
    two token results of calculateUncollectedFees. -/
theorem tickBoundary_tiebreak
    (getTicks : String → Int → Except String TickData)
    (position : PositionInput) (pool : PoolInput)
    (liq g0 g1 last0 last1 oL0 oL1 oU0 oU1 t0 t1 : Int)
    (tickL tickU : TickData)
    (hliq : position.liquidity ≠ "0")
    (hliqP : jsBigIntOfString position.liquidity = .ok liq)
    (hg0 : pool.feeGrowthGlobal0X128 = some g0)
    (hg1 : pool.feeGrowthGlobal1X128 = some g1)
    (hl0 : position.feeGrowthInside0LastX128 = some last0)
    (hl1 : position.feeGrowthInside1LastX128 = some last1)
    (htl : getTicks pool.address position.tickLower = .ok tickL)
    (htu : getTicks pool.address position.tickUpper = .ok tickU)
    (ho1 : tickL.feeGrowthOutside0X128 = some oL0)
    (ho2 : tickL.feeGrowthOutside1X128 = some oL1)
    (ho3 : tickU.feeGrowthOutside0X128 = some oU0)
    (ho4 : tickU.feeGrowthOutside1X128 = some oU1)
    (hw0 : owedToBigInt position.tokensOwed0 = .ok t0)
    (hw1 : owedToBigInt position.tokensOwed1 = .ok t1) :
    (∀ t g o : Int, feeGrowthBelowCalc t t g o = o) ∧
    (∀ t g o : Int, feeGrowthAboveCalc t t g o = subIn256 g o) ∧
    (pool.tick = position.tickLower →
      calculateUncollectedFees getTicks position pool = .ok
        { token0Fees := Int.tdiv (subIn256 (subIn256 (subIn256 g0 oL0)
            (feeGrowthAboveCalc pool.tick position.tickUpper g0 oU0)) last0 * liq) Q128 + t0
          token1Fees := Int.tdiv (subIn256 (subIn256 (subIn256 g1 oL1)
            (feeGrowthAboveCalc pool.tick position.tickUpper g1 oU1)) last1 * liq) Q128 + t1 }) ∧
    (pool.tick = position.tickUpper →
      calculateUncollectedFees getTicks position pool = .ok
        { token0Fees := Int.tdiv (subIn256 (subIn256 (subIn256 g0
            (feeGrowthBelowCalc pool.tick position.tickLower g0 oL0)) (subIn256 g0 oU0)) last0 * liq) Q128 + t0
          token1Fees := Int.tdiv (subIn256 (subIn256 (subIn256 g1
            (feeGrowthBelowCalc pool.tick position.tickLower g1 oL1)) (subIn256 g1 oU1)) last1 * liq) Q128 + t1 }) := by
  have hmain := calcFees_ok getTicks position pool liq g0 g1 last0 last1 oL0 oL1 oU0 oU1 t0 t1
    tickL tickU hliq hliqP hg0 hg1 hl0 hl1 htl htu ho1 ho2 ho3 ho4 hw0 hw1
  refine ⟨fun t g o => by simp [feeGrowthBelowCalc], fun t g o => by simp [feeGrowthAboveCalc], ?_, ?_⟩
  · intro h
    rw [hmain]
    simp only [getCounterfactualFees, feeGrowthInsideCalc, feeGrowthBelowCalc, h,
      le_refl, if_pos]
  · intro h
    rw [hmain]
    simp only [getCounterfactualFees, feeGrowthInsideCalc, feeGrowthAboveCalc, h,
      lt_irrefl, if_neg, not_false_eq_true]

/-- Position used to instantiate the tie-break claim. -/
def c2Position : PositionInput :=
  { liquidity := "5", tickLower := 100, tickUpper := 200
    feeGrowthInside0LastX128 := some 10, feeGrowthInside1LastX128 := some 11
    tokensOwed0 := some "3", tokensOwed1 := some "4" }

/-- Pool whose tick sits exactly on the lower bound of c2Position. -/
def c2PoolLower : PoolInput :=
  { address := "0xpool", tick := 100
    feeGrowthGlobal0X128 := some 1000, feeGrowthGlobal1X128 := some 2000 }

/-- Tick oracle for the tie-break instantiation: snapshot (30, 40) at the
    lower bound, snapshot (50, 60) elsewhere, so at the upper bound. -/
def c2GetTicks : String → Int → Except String TickData :=
  fun _ t => if t = 100 then .ok { feeGrowthOutside0X128 := some 30, feeGrowthOutside1X128 := some 40 }
             else .ok { feeGrowthOutside0X128 := some 50, feeGrowthOutside1X128 := some 60 }

/-- C2 witness: the tie-break at a pool tick equal to tickLower, on concrete
    data: the below slot holds the outside snapshot directly. -/
theorem tickBoundary_tiebreak_inst :
    calculateUncollectedFees c2GetTicks c2Position c2PoolLower = .ok
      { token0Fees := Int.tdiv (subIn256 (subIn256 (subIn256 1000 30)
          (feeGrowthAboveCalc c2PoolLower.tick c2Position.tickUpper 1000 50)) 10 * 5) Q128 + 3
        token1Fees := Int.tdiv (subIn256 (subIn256 (subIn256 2000 40)
          (feeGrowthAboveCalc c2PoolLower.tick c2Position.tickUpper 2000 60)) 11 * 5) Q128 + 4 } :=
  (tickBoundary_tiebreak c2GetTicks c2Position c2PoolLower 5 1000 2000 10 11 30 40 50 60 3 4
    { feeGrowthOutside0X128 := some 30, feeGrowthOutside1X128 := some 40 }
    { feeGrowthOutside0X128 := some 50, feeGrowthOutside1X128 := some 60 }
    (by decide) (by decide) rfl rfl rfl rfl rfl rfl rfl rfl rfl rfl
    (by decide) (by decide)).2.2.1 rfl

/-- The concrete-scenario position: liquidity 2^128 written as the decimal
    string its toString() produces, the owed token0 amount 7, and the
    inside-last counter 300 for token0. -/
def scenarioPosition (tL tU : Int) : PositionInput :=
  { liquidity := "340282366920938463463374607431768211456"
    tickLower := tL, tickUpper := tU
    feeGrowthInside0LastX128 := some 300, feeGrowthInside1LastX128 := some 0
    tokensOwed0 := some "7", tokensOwed1 := none }

/-- The concrete-scenario pool: global token0 counter 500, tick tk. -/
def scenarioPool (tk : Int) : PoolInput :=
  { address := "0xpool", tick := tk
    feeGrowthGlobal0X128 := some 500, feeGrowthGlobal1X128 := some 0 }

/-- The concrete-scenario tick oracle: outside counter 100 at the lower
    bound and 50 at every other tick, hence at the upper bound. -/
def scenarioGetTicks (tL : Int) : String → Int → Except String TickData :=
  fun _ t => if t = tL then .ok { feeGrowthOutside0X128 := some 100, feeGrowthOutside1X128 := some 0 }
             else .ok { feeGrowthOutside0X128 := some 50, feeGrowthOutside1X128 := some 0 }

/-- C5: the concrete scenario.  With a pool tick strictly inside the range,
    global 500, outside 100 below and 50 above, inside-last 300, liquidity
    2^128 and tokensOwed0 = 7, every intermediate value and the final token0
    result are as the specification lists them: below 100, above 50, inside
    350, delta 50, accrued 50, total 57. -/
theorem concrete_fee_scenario (tL tU tk : Int) (h1 : tL < tk) (h2 : tk < tU) :
    feeGrowthBelowCalc tk tL 500 100 = 100 ∧
    feeGrowthAboveCalc tk tU 500 50 = 50 ∧
    feeGrowthInsideCalc tk tL tU 500 100 50 = 350 ∧
    subIn256 350 300 = 50 ∧
    getCounterfactualFees 500 100 50 300 (scenarioPool tk) Q128 tL tU = 50 ∧
    calculateUncollectedFees (scenarioGetTicks tL) (scenarioPosition tL tU) (scenarioPool tk)
      = .ok { token0Fees := 57, token1Fees := 0 } := by
  have hb : feeGrowthBelowCalc tk tL 500 100 = 100 := by
    simp [feeGrowthBelowCalc, le_of_lt h1]
  have ha : feeGrowthAboveCalc tk tU 500 50 = 50 := by
    simp [feeGrowthAboveCalc, h2]
  have hi : feeGrowthInsideCalc tk tL tU 500 100 50 = 350 := by
    rw [feeGrowthInsideCalc, hb, ha]; decide
  have hc : getCounterfactualFees 500 100 50 300 (scenarioPool tk) Q128 tL tU = 50 := by
    rw [getCounterfactualFees, show (scenarioPool tk).tick = tk from rfl, hi]; decide
  have hb1 : feeGrowthBelowCalc tk tL 0 0 = 0 := by
    simp [feeGrowthBelowCalc, le_of_lt h1]
  have ha1 : feeGrowthAboveCalc tk tU 0 0 = 0 := by
    simp [feeGrowthAboveCalc, h2]
  have hc1 : getCounterfactualFees 0 0 0 0 (scenarioPool tk) Q128 tL tU = 0 := by
    rw [getCounterfactualFees, feeGrowthInsideCalc, show (scenarioPool tk).tick = tk from rfl,
      hb1, ha1]
    decide
  have hne : tU ≠ tL := by omega
  have htl : scenarioGetTicks tL (scenarioPool tk).address (scenarioPosition tL tU).tickLower
      = .ok { feeGrowthOutside0X128 := some 100, feeGrowthOutside1X128 := some 0 } := by
    simp [scenarioGetTicks, scenarioPosition]
  have htu : scenarioGetTicks tL (scenarioPool tk).address (scenarioPosition tL tU).tickUpper
      = .ok { feeGrowthOutside0X128 := some 50, feeGrowthOutside1X128 := some 0 } := by
    simp [scenarioGetTicks, scenarioPosition, hne]
  have hmain := calcFees_ok (scenarioGetTicks tL) (scenarioPosition tL tU) (scenarioPool tk)
    Q128 500 0 300 0 100 0 50 0 7 0
    { feeGrowthOutside0X128 := some 100, feeGrowthOutside1X128 := some 0 }
    { feeGrowthOutside0X128 := some 50, feeGrowthOutside1X128 := some 0 }
    (by show ("340282366920938463463374607431768211456" : String) ≠ "0"; decide)
    (by show jsBigIntOfString "340282366920938463463374607431768211456" = .ok Q128; decide)
    rfl rfl rfl rfl htl htu rfl rfl rfl rfl
    (by show owedToBigInt (some "7") = .ok 7; decide) rfl
  refine ⟨hb, ha, hi, by decide, hc, ?_⟩
  rw [hmain, show (scenarioPosition tL tU).tickLower = tL from rfl,
    show (scenarioPosition tL tU).tickUpper = tU from rfl, hc, hc1]
  decide

/-- C5 witness: the scenario evaluated at tickLower 100, pool tick 150,
    tickUpper 200. -/
theorem concrete_fee_scenario_inst :
    feeGrowthBelowCalc 150 100 500 100 = 100 ∧
    feeGrowthAboveCalc 150 200 500 50 = 50 ∧
    feeGrowthInsideCalc 150 100 200 500 100 50 = 350 ∧
    subIn256 350 300 = 50 ∧
    getCounterfactualFees 500 100 50 300 (scenarioPool 150) Q128 100 200 = 50 ∧
    calculateUncollectedFees (scenarioGetTicks 100) (scenarioPosition 100 200) (scenarioPool 150)
      = .ok { token0Fees := 57, token1Fees := 0 } :=
  concrete_fee_scenario 100 200 150 (by norm_num) (by norm_num)

/-- C6: the no-accrual law.  Whenever the derived feeGrowthInside for a
    token index equals the recorded inside-last counter, the accrued fees
    for that index are zero and the corresponding component of the
    calculateUncollectedFees result is exactly the converted tokensOwed. -/
theorem no_accrual_when_inside_unchanged
    (getTicks : String → Int → Except String TickData)
    (position : PositionInput) (pool : PoolInput)
    (liq g0 g1 last0 last1 oL0 oL1 oU0 oU1 t0 t1 : Int)
    (tickL tickU : TickData)
    (hliq : position.liquidity ≠ "0")
    (hliqP : jsBigIntOfString position.liquidity = .ok liq)
    (hg0 : pool.feeGrowthGlobal0X128 = some g0)
    (hg1 : pool.feeGrowthGlobal1X128 = some g1)
    (hl0 : position.feeGrowthInside0LastX128 = some last0)
    (hl1 : position.feeGrowthInside1LastX128 = some last1)
    (htl : getTicks pool.address position.tickLower = .ok tickL)
    (htu : getTicks pool.address position.tickUpper = .ok tickU)
    (ho1 : tickL.feeGrowthOutside0X128 = some oL0)
    (ho2 : tickL.feeGrowthOutside1X128 = some oL1)
    (ho3 : tickU.feeGrowthOutside0X128 = some oU0)
    (ho4 : tickU.feeGrowthOutside1X128 = some oU1)
    (hw0 : owedToBigInt position.tokensOwed0 = .ok t0)
    (hw1 : owedToBigInt position.tokensOwed1 = .ok t1) :
    (feeGrowthInsideCalc pool.tick position.tickLower position.tickUpper g0 oL0 oU0 = last0 →
      getCounterfactualFees g0 oL0 oU0 last0 pool liq position.tickLower position.tickUpper = 0 ∧
      Except.map FeeResult.token0Fees (calculateUncollectedFees getTicks position pool) = .ok t0) ∧
    (feeGrowthInsideCalc pool.tick position.tickLower position.tickUpper g1 oL1 oU1 = last1 →
      getCounterfactualFees g1 oL1 oU1 last1 pool liq position.tickLower position.tickUpper = 0 ∧
      Except.map FeeResult.token1Fees (calculateUncollectedFees getTicks position pool) = .ok t1) := by
  have hmain := calcFees_ok getTicks position pool liq g0 g1 last0 last1 oL0 oL1 oU0 oU1 t0 t1
    tickL tickU hliq hliqP hg0 hg1 hl0 hl1 htl htu ho1 ho2 ho3 ho4 hw0 hw1
  constructor
  · intro h
    have hz : getCounterfactualFees g0 oL0 oU0 last0 pool liq position.tickLower position.tickUpper = 0 := by
      rw [getCounterfactualFees, h, subIn256_self, zero_mul, Int.zero_tdiv]
    exact ⟨hz, by rw [hmain]; simp [Except.map, hz]⟩
  · intro h
    have hz : getCounterfactualFees g1 oL1 oU1 last1 pool liq position.tickLower position.tickUpper = 0 := by
      rw [getCounterfactualFees, h, subIn256_self, zero_mul, Int.zero_tdiv]
    exact ⟨hz, by rw [hmain]; simp [Except.map, hz]⟩

/-- Position used to instantiate the no-accrual law: inside-last counters
    chosen to coincide with the derived inside values. -/
def c6Position : PositionInput :=
  { liquidity := "5", tickLower := 0, tickUpper := 10
    feeGrowthInside0LastX128 := some 50, feeGrowthInside1LastX128 := some 5
    tokensOwed0 := some "7", tokensOwed1 := none }

/-- Pool for the no-accrual instantiation: tick 5, globals 100 and 8. -/
def c6Pool : PoolInput :=
  { address := "0xpool", tick := 5
    feeGrowthGlobal0X128 := some 100, feeGrowthGlobal1X128 := some 8 }

/-- Tick oracle for the no-accrual instantiation: snapshot (30, 1) at the
    lower bound, snapshot (20, 2) elsewhere, so at the upper bound. -/
def c6GetTicks : String → Int → Except String TickData :=
  fun _ t => if t = 0 then .ok { feeGrowthOutside0X128 := some 30, feeGrowthOutside1X128 := some 1 }
             else .ok { feeGrowthOutside0X128 := some 20, feeGrowthOutside1X128 := some 2 }

/-- C6 witness: on concrete data whose derived inside counters equal the
    recorded inside-last counters, both accrued amounts are zero and the
    results are exactly the owed amounts. -/
theorem no_accrual_when_inside_unchanged_inst :
    getCounterfactualFees 100 30 20 50 c6Pool 5 c6Position.tickLower c6Position.tickUpper = 0 ∧
    Except.map FeeResult.token0Fees (calculateUncollectedFees c6GetTicks c6Position c6Pool) = .ok 7 ∧
    getCounterfactualFees 8 1 2 5 c6Pool 5 c6Position.tickLower c6Position.tickUpper = 0 ∧
    Except.map FeeResult.token1Fees (calculateUncollectedFees c6GetTicks c6Position c6Pool) = .ok 0 := by
  have h := no_accrual_when_inside_unchanged c6GetTicks c6Position c6Pool 5 100 8 50 5 30 1 20 2 7 0
    { feeGrowthOutside0X128 := some 30, feeGrowthOutside1X128 := some 1 }
    { feeGrowthOutside0X128 := some 20, feeGrowthOutside1X128 := some 2 }
    (by decide) (by decide) rfl rfl rfl rfl rfl rfl rfl rfl rfl rfl (by decide) rfl
  obtain ⟨h0, h1⟩ := h
  obtain ⟨ha, hb⟩ := h0 (by decide)
  obtain ⟨hc, hd⟩ := h1 (by decide)
  exact ⟨ha, hb, hc, hd⟩

/-- The fields of a fetched position that getPositionsForWallet inspects:
    src/hyperswap.ts line 114 reads only the liquidity string; the rest of
    the PositionInfo record travels through as a payload, represented here
    by the id. -/
structure PositionLite where
  id : String
  liquidity : String
deriving DecidableEq

/-- The contribution of one index to the aggregation result: the position
    when its fetch succeeded and its liquidity string is not zero, nothing
    otherwise (src/hyperswap.ts lines 112-119). -/
def keepPosition (r : Except String PositionLite) : Option PositionLite :=
  match r with
  | .ok p => if p.liquidity ≠ "0" then some p else none
  | .error _ => none

/-- The loop of src/hyperswap.ts lines 106-120 for indices below n, in
    ascending index order.  The tokenOfOwnerByIndex fetch sits outside the
    try block, so its failure propagates; the getPosition fetch sits inside
    the try block, so its failure is caught (logged) and the index skipped. -/
def positionsUpTo (tokenOfOwnerByIndex : Nat → Except String String)
    (getPosition : String → Except String PositionLite) : Nat → Except String (List PositionLite)
  | 0 => .ok []
  | n + 1 => do
    let acc ← positionsUpTo tokenOfOwnerByIndex getPosition n
    let tokenId ← tokenOfOwnerByIndex n
    match getPosition tokenId with
    | .ok position => if position.liquidity ≠ "0" then .ok (acc ++ [position]) else .ok acc
    | .error _ => .ok acc

/-- src/hyperswap.ts lines 102-123, getPositionsForWallet: run the loop for
    every index below the owner balance. -/
def getPositionsForWallet (tokenOfOwnerByIndex : Nat → Except String String)
    (getPosition : String → Except String PositionLite) (balance : Nat) :
    Except String (List PositionLite) :=
  positionsUpTo tokenOfOwnerByIndex getPosition balance

lemma positionsUpTo_ok (tokenOfOwnerByIndex : Nat → Except String String)
    (getPosition : String → Except String PositionLite) (ids : Nat → String) :
    ∀ n, (∀ i, i < n → tokenOfOwnerByIndex i = .ok (ids i)) →
      positionsUpTo tokenOfOwnerByIndex getPosition n
        = .ok ((List.range n).filterMap fun i => keepPosition (getPosition (ids i)))
  | 0, _ => rfl
  | n + 1, h => by
    have ih := positionsUpTo_ok tokenOfOwnerByIndex getPosition ids n
      (fun i hi => h i (Nat.lt_succ_of_lt hi))
    simp only [positionsUpTo, ih, except_bind_ok, h n (Nat.lt_succ_self n),
      List.range_succ, List.filterMap_append]
    cases hg : getPosition (ids n) with
    | ok p =>
      by_cases hp : p.liquidity = "0" <;> simp [keepPosition, hg, hp]
    | error e => simp [keepPosition, hg]

/-- C7: per-index failure isolation.  When every id lookup succeeds and the
    position fetch at one index j fails, getPositionsForWallet still
    succeeds and returns, in index order, the surviving nonzero-liquidity
    positions of every other index, with index j contributing nothing. -/
theorem positions_isolate_per_index_failures
    (tokenOfOwnerByIndex : Nat → Except String String)
    (getPosition : String → Except String PositionLite)
    (ids : Nat → String) (n j : Nat) (e : String)
    (hids : ∀ i, i < n → tokenOfOwnerByIndex i = .ok (ids i))
    (hj : j < n)
    (hfail : getPosition (ids j) = .error e) :
    getPositionsForWallet tokenOfOwnerByIndex getPosition n
      = .ok ((List.range n).filterMap fun i =>
          if i = j then none else keepPosition (getPosition (ids i))) := by
  rw [getPositionsForWallet, positionsUpTo_ok tokenOfOwnerByIndex getPosition ids n hids]
  congr 1
  apply List.filterMap_congr
  intro i _
  by_cases hij : i = j
  · subst hij
    simp [keepPosition, hfail]
  · simp [hij]

/-- Id lookup for the isolation witness: five indices with distinct ids. -/
def w7TokenAt : Nat → Except String String
  | 0 => .ok "a"
  | 1 => .ok "b"
  | 2 => .ok "c"
  | 3 => .ok "d"
  | 4 => .ok "e"
  | _ => .error "out of range"

/-- The ids the witness lookup produces. -/
def w7Ids : Nat → String
  | 0 => "a"
  | 1 => "b"
  | 2 => "c"
  | 3 => "d"
  | 4 => "e"
  | _ => ""

/-- Position fetch for the isolation witness: the fetch of id c fails, id e
    has zero liquidity, the rest succeed with nonzero liquidity. -/
def w7GetPos : String → Except String PositionLite :=
  fun s =>
    if s = "c" then .error "boom"
    else if s = "e" then .ok { id := s, liquidity := "0" }
    else .ok { id := s, liquidity := "5" }

/-- C7 witness: five indices, the fetch at index 2 fails, index 4 has zero
    liquidity; the result keeps indices 0, 1 and 3 in order. -/
theorem positions_isolate_per_index_failures_inst :
    getPositionsForWallet w7TokenAt w7GetPos 5
      = .ok [{ id := "a", liquidity := "5" }, { id := "b", liquidity := "5" },
             { id := "d", liquidity := "5" }] := by
  have h := positions_isolate_per_index_failures w7TokenAt w7GetPos w7Ids 5 2 "boom"
    (by intro i hi; interval_cases i <;> rfl) (by norm_num) (by decide)
  rw [h]
  decide

/-- The shared mutable state of one adapter instance: the cached factory
    address (the empty string when unset, as assigned in the constructor at
    src/hyperswap.ts line 73) together with a count of fetchFactoryAddress
    round trips issued. -/
structure AdapterState where
  factoryAddress : String
  fetchCount : Nat
deriving DecidableEq

/-- Program counter of one call to initializeFactory: not yet run, suspended
    at the await of positionManager.factory() with the round trip already
    issued, or finished. -/
inductive InitPC where
  | start
  | awaitingFetch
  | done
deriving DecidableEq

/-- The address the factory() round trip returns: any fixed nonempty
    string. -/
def fetchedFactoryAddress : String := "0xfactory"

/-- One atomic step of a call to initializeFactory (src/hyperswap.ts lines
    76-85; the identical code at src/index.ts lines 162-171).  Code between
    awaits runs atomically in JS: at start the call checks the plain flag
    (the empty string is falsy) and, when unset, issues the fetch and
    suspends at the await; on resume it writes the fetched address. -/
def initializeFactoryStep (s : AdapterState) (pc : InitPC) : AdapterState × InitPC :=
  match pc with
  | .start =>
    if s.factoryAddress = "" then
      ({ s with fetchCount := s.fetchCount + 1 }, .awaitingFetch)
    else (s, .done)
  | .awaitingFetch => ({ s with factoryAddress := fetchedFactoryAddress }, .done)
  | .done => (s, .done)

/-- Run two concurrent calls to initializeFactory under a schedule: each
    entry selects the call whose next atomic step runs (false for the
    first call, true for the second). -/
def runTwo (sched : List Bool) (s : AdapterState) (pc0 pc1 : InitPC) :
    AdapterState × InitPC × InitPC :=
  match sched with
  | [] => (s, pc0, pc1)
  | b :: rest =>
    if b then
      let step := initializeFactoryStep s pc1
      runTwo rest step.1 pc0 step.2
    else
      let step := initializeFactoryStep s pc0
      runTwo rest step.1 step.2 pc1

/-- The adapter state right after the constructor: empty cached address and
    no round trips issued. -/
def initialAdapterState : AdapterState := { factoryAddress := "", fetchCount := 0 }

/-- C8 counterexample: under the interleaving in which both first calls
    check the plain flag before either write happens, each call issues its
    own factory round trip, so the fetch count reaches 2 and the
    at-most-one-resolution property fails. -/
theorem racing_init_double_fetch :
    (runTwo [false, true, false, true] initialAdapterState .start .start).1.fetchCount = 2 ∧
    ¬ (runTwo [false, true, false, true] initialAdapterState .start .start).1.fetchCount ≤ 1 :=
  ⟨by decide, by decide⟩

/-- C8 amended: a call that starts after the cached address is set performs
    no fetch and finishes immediately, and two sequential calls from the
    fresh state issue exactly one round trip and leave the fetched address
    cached. -/
theorem init_fetch_sequential_once :
    (runTwo [false, false, true] initialAdapterState .start .start
      = ({ factoryAddress := fetchedFactoryAddress, fetchCount := 1 }, .done, .done)) ∧
    (∀ s : AdapterState, s.factoryAddress ≠ "" →
      initializeFactoryStep s .start = (s, .done)) := by
  refine ⟨by decide, ?_⟩
  intro s hs
  simp [initializeFactoryStep, hs]

/-- C8 amended witness: the cached-address fast path evaluated on a state
    holding the fetched address. -/
theorem init_fetch_sequential_once_inst :
    initializeFactoryStep { factoryAddress := "0xfactory", fetchCount := 1 } .start
      = ({ factoryAddress := "0xfactory", fetchCount := 1 }, .done) :=
  init_fetch_sequential_once.2 { factoryAddress := "0xfactory", fetchCount := 1 } (by decide)

/-- src/hyperswap.ts lines 42-54: the static fee-tier table of the
    HyperSwap adapter, keyed by the four known tiers. -/
def TICK_SPACINGS : Int → Option Int := fun fee =>
  if fee = 100 then some 1
  else if fee = 500 then some 10
  else if fee = 3000 then some 60
  else if fee = 10000 then some 200
  else none

/-- src/hyperswap.ts lines 305-311, getTickSpacingForFee: a lookup in the
    static table that throws on a miss.  The chain data source the adapter
    instance holds is passed along so that independence from it can be
    stated; the body never touches it. -/
def getTickSpacingForFee (_ds : String → Except String Int) (fee : Int) : Except String Int :=
  match TICK_SPACINGS fee with
  | some spacing => .ok spacing
  | none => .error ("Unknown fee amount: " ++ toString fee)

/-- C9: the tick-spacing lookup is a pure static-table function.  It maps
    the four known tiers to their baked-in spacings, fails with the
    unknown-fee error on every other fee, and its result never depends on
    the chain data source. -/
theorem tickSpacing_static_lookup :
    (∀ ds, getTickSpacingForFee ds 100 = .ok 1 ∧ getTickSpacingForFee ds 500 = .ok 10 ∧
      getTickSpacingForFee ds 3000 = .ok 60 ∧ getTickSpacingForFee ds 10000 = .ok 200) ∧
    (∀ ds fee, fee ≠ 100 → fee ≠ 500 → fee ≠ 3000 → fee ≠ 10000 →
      getTickSpacingForFee ds fee = .error ("Unknown fee amount: " ++ toString fee)) ∧
    (∀ ds1 ds2 fee, getTickSpacingForFee ds1 fee = getTickSpacingForFee ds2 fee) := by
  refine ⟨fun ds => ⟨rfl, rfl, rfl, rfl⟩, ?_, fun ds1 ds2 fee => rfl⟩
  intro ds fee h1 h2 h3 h4
  simp [getTickSpacingForFee, TICK_SPACINGS, h1, h2, h3, h4]

/-- A collaborator stub that fails if it is ever invoked. -/
def dsStub : String → Except String Int := fun _ => .error "no network"

/-- C9 witness: the lookup evaluated with the failing collaborator stub, on
    a known tier and on a miss. -/
theorem tickSpacing_static_lookup_inst :
    getTickSpacingForFee dsStub 100 = .ok 1 ∧
    getTickSpacingForFee dsStub 4242 = .error ("Unknown fee amount: " ++ toString (4242 : Int)) :=
  ⟨(tickSpacing_static_lookup.1 dsStub).1,
    tickSpacing_static_lookup.2.1 dsStub 4242 (by norm_num) (by norm_num) (by norm_num)
      (by norm_num)⟩

/-- src/hyperswap.ts lines 152-154 and src/index.ts lines 200-202: the
    inRange flag computed by getPosition in both adapter variants. -/
def inRangeFlag (currentTick tickLower tickUpper : Int) : Bool :=
  decide (tickLower ≤ currentTick) && decide (currentTick ≤ tickUpper)

/-- C10: the inRange flag is true exactly when the current tick lies in the
    closed interval from tickLower to tickUpper, both bounds inclusive; in
    particular a tick equal to tickUpper is in range, while the fee
    attribution for that same tick takes the subtracted feeGrowthAbove
    branch. -/
theorem inRange_inclusive_bounds (t l u g o : Int) :
    (inRangeFlag t l u = true ↔ l ≤ t ∧ t ≤ u) ∧
    (l ≤ u → inRangeFlag u l u = true) ∧
    feeGrowthAboveCalc u u g o = subIn256 g o := by
  refine ⟨?_, ?_, ?_⟩
  · simp [inRangeFlag]
  · intro h
    simp [inRangeFlag, h]
  · simp [feeGrowthAboveCalc]

/-- C10 witness: the inclusive-bounds property evaluated at the boundary
    tick 200 of the range from 100 to 200. -/
theorem inRange_inclusive_bounds_inst :
    inRangeFlag 150 100 200 = true ∧
    inRangeFlag 200 100 200 = true ∧
    feeGrowthAboveCalc 200 200 500 50 = subIn256 500 50 :=
  ⟨(inRange_inclusive_bounds 150 100 200 500 50).1.mpr (by norm_num),
    (inRange_inclusive_bounds 150 100 200 500 50).2.1 (by norm_num),
    (inRange_inclusive_bounds 150 100 200 500 50).2.2⟩

end Hyperbalancer
